import Mathlib

/-!
Verification development for the pollen-history-collector application
(`src/app.py`).  The Python source is shallowly embedded below: pure
computations become Lean functions; the effects of a sweep (HTTP exchange
outcomes, image decoding by PIL, file-write outcomes, the clock) are
supplied by an explicit `World` of oracles, and the archive on disk is an
explicit association-list `FileSystem` threaded through the functions.
Python exceptions are values of `PyError`; every `PyError` models a Python
`Exception` (in CPython, `AssertionError` is a subclass of `Exception`,
recorded here by the `isAssertion` flag).
-/

set_option maxRecDepth 4000

namespace PollenApp

/-- The `Area` enumeration of `app.py` (lines 18-31): the `.value` strings
are the wire codes sent to the remote service; the Python `Enum` member
name (`.name`) is the display name used in archive paths. -/
inductive Area where
  | Austria
  | France
  | Germany
  | GreatBritain
  | Italy
  | Latvia
  | Lithuania
  | Poland
  | Spain
  | Sweden
  | Switzerland
  | Turkey
  | Ukrain
deriving DecidableEq, Repr, Fintype

/-- Wire code of an `Area` (the Python enum member value). -/
def Area.value : Area → String
  | .Austria => "at"
  | .France => "fr"
  | .Germany => "de"
  | .GreatBritain => "gb"
  | .Italy => "it"
  | .Latvia => "lv"
  | .Lithuania => "lt"
  | .Poland => "pl"
  | .Spain => "es"
  | .Sweden => "se"
  | .Switzerland => "ch"
  | .Turkey => "tr"
  | .Ukrain => "ua"

/-- Display name of an `Area` (the Python enum member name). -/
def Area.name : Area → String
  | .Austria => "Austria"
  | .France => "France"
  | .Germany => "Germany"
  | .GreatBritain => "GreatBritain"
  | .Italy => "Italy"
  | .Latvia => "Latvia"
  | .Lithuania => "Lithuania"
  | .Poland => "Poland"
  | .Spain => "Spain"
  | .Sweden => "Sweden"
  | .Switzerland => "Switzerland"
  | .Turkey => "Turkey"
  | .Ukrain => "Ukrain"

/-- The `AllergyType` enumeration of `app.py` (lines 34-41). -/
inductive AllergyType where
  | AllergyRisk
  | Mugwort
  | Birch
  | Alder
  | Grasses
  | Olive
  | Ragweed
deriving DecidableEq, Repr, Fintype

/-- Wire code of an `AllergyType` (the Python enum member value). -/
def AllergyType.value : AllergyType → String
  | .AllergyRisk => "ar"
  | .Mugwort => "ARTE"
  | .Birch => "BETU"
  | .Alder => "ALNU"
  | .Grasses => "POAC"
  | .Olive => "OLEA"
  | .Ragweed => "AMBR"

/-- Display name of an `AllergyType` (the Python enum member name). -/
def AllergyType.name : AllergyType → String
  | .AllergyRisk => "AllergyRisk"
  | .Mugwort => "Mugwort"
  | .Birch => "Birch"
  | .Alder => "Alder"
  | .Grasses => "Grasses"
  | .Olive => "Olive"
  | .Ragweed => "Ragweed"

/-- Raw bytes (an encoded image, an HTTP body, ...). -/
abbrev Bytes := List Nat

/-- A `datetime.datetime` value, at the day granularity the program uses
(`now.year`, `now.month`, `now.day` and `strftime` are all it reads). -/
structure DateTime where
  year : Nat
  month : Nat
  day : Nat
deriving DecidableEq, Repr

/-- A Python exception value.  Every `PyError` models a Python `Exception`;
`isAssertion` marks an `AssertionError` (which in CPython is itself a
subclass of `Exception`, hence caught by every `except Exception` clause). -/
structure PyError where
  isAssertion : Bool
  msg : String
deriving DecidableEq, Repr

/-- The `AssertionError` raised by the `assert` statement on line 51. -/
def dayAssertionError : PyError := ⟨true, "only day between is supported"⟩

/-- An `httpx` response: status code and body bytes. -/
structure HttpResponse where
  status_code : Nat
  content : Bytes
deriving DecidableEq, Repr

/-- The observable request `PollenInfoClient.get_data` issues: path and the
four query parameters of `app.py` lines 53-59. -/
structure HttpRequest where
  path : String
  type : String
  area : String
  day : Int
  lang : String
deriving DecidableEq, Repr

/-- A `pathlib.Path`, as its list of segments (the Python code only ever
builds paths with the `/` operator, which appends one segment). -/
abbrev PyPath := List String

/-- Render a `pathlib.Path` the way `str()` does on POSIX. -/
def PyPath.render (p : PyPath) : String := String.intercalate "/" p

/-- The on-disk archive: an association list from path to file content in
which a write replaces any previous file at the same path. -/
abbrev FileSystem := List (PyPath × Bytes)

/-- Writing a file: the path now maps to exactly this content (any earlier
file at the same path is overwritten). -/
def writeFile (fs : FileSystem) (p : PyPath) (b : Bytes) : FileSystem :=
  (p, b) :: fs.filter (fun e => !decide (e.1 = p))

/-- Reading a file back: the content at the path, if a file exists there. -/
def readFile (fs : FileSystem) (p : PyPath) : Option Bytes :=
  (fs.find? (fun e => decide (e.1 = p))).map (·.2)

/-- The effectful context of one sweep: the base directory and capture
moment, and oracles giving the outcome of each external interaction —
the HTTP exchange of `httpx.AsyncClient.get` (an exception, or a completed
response of any status code), the PIL decode/draw/encode pipeline of
`draw_on_image` (a decode failure, or annotated bytes), and the `aiofiles`
write (a storage failure, or success). -/
structure World where
  base : String
  now : DateTime
  httpGet : AllergyType → Area → Int → String → Except PyError HttpResponse
  draw : AllergyType → DateTime → Bytes → Except PyError Bytes
  writeErr : PyPath → Bytes → Option PyError

/-- `PollenInfoClient.get_data` (`app.py` lines 48-61).  The `assert`
statement on line 51 runs before the request is built and sent, so a
day outside `[0, 2]` raises `AssertionError` with no request issued (the
returned list records the requests the call issued).  On a completed
exchange the body `result.content` is returned whatever the status code —
the code never consults `result.status_code`; an exception raised by the
exchange itself propagates. -/
def get_data (w : World) (t : AllergyType) (a : Area) (day : Int := 0)
    (lang : String := "en") : List HttpRequest × Except PyError Bytes :=
  if 0 ≤ day ∧ day ≤ 2 then
    ([⟨"/dex/rest/geo/map", t.value, a.value, day, lang⟩],
      match w.httpGet t a day lang with
      | .error e => .error e
      | .ok result => .ok result.content)
  else
    ([], .error dayAssertionError)

/-- The zero-padding performed by CPython `strftime` directives: the
decimal digits of `n`, left-padded with zeros to width `w`. -/
def zpad (w : Nat) (n : Nat) : String :=
  String.mk (List.replicate (w - (Nat.repr n).length) '0') ++ Nat.repr n

/-- `now.strftime('%Y-%m-%d')` as used on line 73: zero-padded four-digit
year, two-digit month and two-digit day, joined with hyphens. -/
def strftime_Ymd (d : DateTime) : String :=
  zpad 4 d.year ++ "-" ++ zpad 2 d.month ++ "-" ++ zpad 2 d.day

/-- The label text composed by `draw_on_image` (`app.py` line 73):
`f"{now.strftime('%Y-%m-%d')} {type.name}"`. -/
def label_text (t : AllergyType) (now : DateTime) : String :=
  strftime_Ymd now ++ " " ++ t.name

/-- The RGBA fill of the rounded rectangle drawn behind the label text by
`draw_on_image` (`app.py` line 87): white with an alpha of 1 out of 255. -/
def plate_fill : Nat × Nat × Nat × Nat := (255, 255, 255, 1)

/-- The archive path built by `save_image` (`app.py` lines 102-104):
`self.base_path / type.name / area.name / str(now.year) / str(now.month)`
and then the file `f"{now.day}.png"`.  `str()` on an int renders the
unpadded decimal digits, i.e. `Nat.repr`. -/
def save_image_path (base : String) (t : AllergyType) (now : DateTime)
    (a : Area) : PyPath :=
  [base, t.name, a.name, Nat.repr now.year, Nat.repr now.month,
    Nat.repr now.day ++ ".png"]

/-- `ImageCollection.save_image` (`app.py` lines 100-107): compute the
path (the `mkdir` calls are idempotent directory creation, invisible in
this filesystem model), annotate the bytes via `draw_on_image`, write the
file.  A PIL failure inside `draw_on_image` or a storage failure of the
write propagates as an exception; on success the archive maps the path to
the annotated bytes. -/
def save_image (w : World) (fs : FileSystem) (content : Bytes)
    (t : AllergyType) (a : Area) : Except PyError FileSystem :=
  match w.draw t w.now content with
  | .error e => .error e
  | .ok image_bytes =>
    match w.writeErr (save_image_path w.base t w.now a) image_bytes with
    | some e => .error e
    | none => .ok (writeFile fs (save_image_path w.base t w.now a) image_bytes)

/-- The body of the inner loop of `Collector._run_step` (`app.py` lines
139-147): `try: get_data; save_image; except Exception: log and fall
through`.  Every `PyError` is a Python `Exception`, so the clause catches
every failure of the pair, assertion errors included, and the archive is
left as it was for that pair. -/
def run_pair (w : World) (fs : FileSystem) (a : Area) (t : AllergyType) :
    FileSystem :=
  match (get_data w t a).2 with
  | .error _ => fs
  | .ok content =>
    match save_image w fs content t a with
    | .error _ => fs
    | .ok fs2 => fs2

/-- The iteration order of `_run_step`'s two nested `for` loops: areas
outer, types inner. -/
def sweep_order (areas : List Area) (types : List AllergyType) :
    List (Area × AllergyType) :=
  areas.flatMap (fun a => types.map (fun t => (a, t)))

/-- `Collector._run_step` (`app.py` lines 135-149): run `run_pair` for
every pair of the sweep in order (the 5-second courtesy pause after each
pair has no effect on the archive), returning the final archive together
with the trace of pairs attempted.  The wall-clock duration it returns in
Python is handled abstractly by `run_iteration`. -/
def _run_step (w : World) (areas : List Area) (types : List AllergyType)
    (fs : FileSystem) : FileSystem × List (Area × AllergyType) :=
  ((sweep_order areas types).foldl (fun acc p => run_pair w acc p.1 p.2) fs,
    sweep_order areas types)

/-- The pure outcome of one pair, read off `run_pair`: the path and
annotated bytes it writes when fetch, annotate and store all succeed,
`none` when any of them raises. -/
def step_success (w : World) (a : Area) (t : AllergyType) :
    Option (PyPath × Bytes) :=
  match (get_data w t a).2 with
  | .error _ => none
  | .ok content =>
    match w.draw t w.now content with
    | .error _ => none
    | .ok image_bytes =>
      match w.writeErr (save_image_path w.base t w.now a) image_bytes with
      | some _ => none
      | none => some (save_image_path w.base t w.now a, image_bytes)

/-- The sleep amount `Collector.run` computes after a successful sweep
(`app.py` line 133): `24 * 60 * 60 - execution_time`, with no clamping. -/
def computed_sleep (execution_time : ℚ) : ℚ :=
  24 * 60 * 60 - execution_time

/-- Models the delay argument handling of Python `asyncio.sleep`: a
non-positive delay yields control once and returns immediately, i.e. the
time actually waited is zero. -/
def asyncio_sleep_delay (delay : ℚ) : ℚ :=
  if delay ≤ 0 then 0 else delay

/-- What one iteration of `Collector.run`'s `while True` loop decides to
do next (`app.py` lines 124-133).  `exitProcess` is expressible so that
theorems can state the loop never chooses it. -/
inductive LoopAction where
  | exitProcess : LoopAction
  | continueAfterSleep : ℚ → LoopAction
deriving DecidableEq

/-- One iteration of `Collector.run` (`app.py` lines 124-133), as a
function of the sweep body's outcome: an escaped exception is logged and
followed by a 60-second pause and `continue` (the next iteration re-runs
`_run_step`, which always starts from the first pair of `sweep_order`); a
successful sweep of duration `d` is followed by a sleep of
`computed_sleep d` and the next iteration.  No branch leaves the loop. -/
def run_iteration (res : Except PyError ℚ) : LoopAction :=
  match res with
  | .error _ => .continueAfterSleep 60
  | .ok d => .continueAfterSleep (computed_sleep d)

/-- A two-character decimal rendering, stated from the spec's words (the
MM and DD of the label's YYYY-MM-DD date): the decimal digits, preceded by
a zero when there is a single digit.  Compared against the source-derived
`zpad 2` in the C9 theorem. -/
def two_digits (n : Nat) : String :=
  if n < 10 then "0" ++ Nat.repr n else Nat.repr n

/-- A four-character decimal rendering, stated from the spec's words (the
YYYY of the label's date): the decimal digits, preceded by the zeros
needed to reach four characters.  Compared against the source-derived
`zpad 4` in the C9 theorem. -/
def four_digits (n : Nat) : String :=
  if n < 10 then "000" ++ Nat.repr n
  else if n < 100 then "00" ++ Nat.repr n
  else if n < 1000 then "0" ++ Nat.repr n
  else Nat.repr n

/-- The label the spec asks for: the capture date as YYYY-MM-DD, a single
space, the category display name. -/
def spec_label (t : AllergyType) (d : DateTime) : String :=
  four_digits d.year ++ "-" ++ two_digits d.month ++ "-" ++ two_digits d.day
    ++ " " ++ t.name

/-- A capture moment used by the concrete witnesses: 2024-03-07. -/
def sampleDate : DateTime := ⟨2024, 3, 7⟩

/-- A world in which every HTTP exchange completes with status 200 and
body `[1, 2, 3]`, PIL succeeds (annotated bytes modelled as a 99 byte
prepended to the input), and every write succeeds. -/
def okWorld : World where
  base := "collected-data"
  now := sampleDate
  httpGet := fun _ _ _ _ => .ok ⟨200, [1, 2, 3]⟩
  draw := fun _ _ content => .ok (99 :: content)
  writeErr := fun _ _ => none

/-- A world whose HTTP exchanges complete with a 500 status and an error
body `[7, 7, 7]`. -/
def http500World : World where
  base := "collected-data"
  now := sampleDate
  httpGet := fun _ _ _ _ => .ok ⟨500, [7, 7, 7]⟩
  draw := fun _ _ content => .ok (99 :: content)
  writeErr := fun _ _ => none

/-- A world in which every fetch raises an `AssertionError` (a
precondition violation surfacing inside the per-pair `try` block). -/
def assertRaiseWorld : World where
  base := "collected-data"
  now := sampleDate
  httpGet := fun _ _ _ _ => .error ⟨true, "precondition violated"⟩
  draw := fun _ _ content => .ok (99 :: content)
  writeErr := fun _ _ => none

/-- A world in which the fetch for France fails with a connection error
while every other exchange completes with status 200. -/
def mixedWorld : World where
  base := "collected-data"
  now := sampleDate
  httpGet := fun _ a _ _ =>
    match a with
    | .France => .error ⟨false, "connection refused"⟩
    | _ => .ok ⟨200, [1, 2, 3]⟩
  draw := fun _ _ content => .ok (99 :: content)
  writeErr := fun _ _ => none

/-! Helper lemmas: decimal rendering (`Nat.repr`), the archive
association list, and the sweep fold. -/

lemma toDigitsCore_shift (b : Nat) (hb : 2 ≤ b) :
    ∀ f n l, n < f → Nat.toDigitsCore b f n l = Nat.toDigitsCore b f n [] ++ l := by
  intro f
  induction f with
  | zero => intro n l h; omega
  | succ f ih =>
    intro n l h
    simp only [Nat.toDigitsCore]
    by_cases h0 : n / b = 0
    · simp [h0]
    · have hn : 0 < n := by
        rcases Nat.eq_zero_or_pos n with h' | h'
        · exact absurd (by simp [h']) h0
        · exact h'
      have hd : n / b < n := Nat.div_lt_self hn (by omega)
      simp only [h0, if_false]
      rw [ih (n / b) ((n % b).digitChar :: l) (by omega),
          ih (n / b) [(n % b).digitChar] (by omega)]
      simp

lemma toDigitsCore_fuel (b : Nat) (hb : 2 ≤ b) :
    ∀ n f1 f2, n < f1 → n < f2 →
      Nat.toDigitsCore b f1 n [] = Nat.toDigitsCore b f2 n [] := by
  intro n
  induction n using Nat.strong_induction_on with
  | _ n ih =>
    intro f1 f2 h1 h2
    match f1, f2 with
    | g1 + 1, g2 + 1 =>
      simp only [Nat.toDigitsCore]
      by_cases h0 : n / b = 0
      · simp [h0]
      · have hn : 0 < n := by
          rcases Nat.eq_zero_or_pos n with h' | h'
          · exact absurd (by simp [h']) h0
          · exact h'
        have hd : n / b < n := Nat.div_lt_self hn (by omega)
        simp only [h0, if_false]
        rw [toDigitsCore_shift b hb g1 (n / b) _ (by omega),
            toDigitsCore_shift b hb g2 (n / b) _ (by omega),
            ih (n / b) hd (g1) (g2) (by omega) (by omega)]

lemma toDigits_step (n : Nat) (h : 10 ≤ n) :
    Nat.toDigits 10 n = Nat.toDigits 10 (n / 10) ++ [(n % 10).digitChar] := by
  have h0 : ¬ n / 10 = 0 := by omega
  conv_lhs => simp only [Nat.toDigits, Nat.toDigitsCore, h0, if_false]
  rw [toDigitsCore_shift 10 (by omega) n (n / 10) _ (by omega),
      toDigitsCore_fuel 10 (by omega) (n / 10) n (n / 10 + 1) (by omega) (by omega)]
  rfl

lemma repr_len_step (n : Nat) (h : 10 ≤ n) :
    (Nat.repr n).length = (Nat.repr (n / 10)).length + 1 := by
  show (Nat.toDigits 10 n).asString.data.length = _
  rw [toDigits_step n h]
  simp [List.asString, Nat.repr, String.length]

lemma repr_len_pos (n : Nat) : 1 ≤ (Nat.repr n).length := by
  by_cases h : 10 ≤ n
  · rw [repr_len_step n h]; omega
  · have small : ∀ m, m < 10 → 1 ≤ (Nat.repr m).length := by decide
    exact small n (by omega)

lemma repr_len_lower : ∀ k n, 10 ^ k ≤ n → k + 1 ≤ (Nat.repr n).length := by
  intro k
  induction k with
  | zero => intro n _; exact repr_len_pos n
  | succ k ih =>
    intro n h
    have hpow : (10 : Nat) ≤ 10 ^ (k + 1) := by
      calc (10 : Nat) = 10 ^ 1 := by norm_num
      _ ≤ 10 ^ (k + 1) := Nat.pow_le_pow_right (by omega) (by omega)
    have h10 : 10 ≤ n := le_trans hpow h
    have hdiv : 10 ^ k ≤ n / 10 := by
      rw [Nat.le_div_iff_mul_le (by omega)]
      calc 10 ^ k * 10 = 10 ^ (k + 1) := by rw [pow_succ]
      _ ≤ n := h
    rw [repr_len_step n h10]
    have := ih (n / 10) hdiv
    omega

lemma repr_len_eq (k n : Nat) (h1 : 10 ^ k ≤ n) (h2 : n < 10 ^ (k + 1)) :
    (Nat.repr n).length = k + 1 :=
  le_antisymm (Nat.repr_length n (k + 1) (Nat.succ_pos k) h2) (repr_len_lower k n h1)

lemma repr_len_small (n : Nat) (h : n < 10) : (Nat.repr n).length = 1 :=
  le_antisymm (Nat.repr_length n 1 one_pos (by omega)) (repr_len_pos n)

lemma zpad2_eq (n : Nat) (h : n < 100) : zpad 2 n = two_digits n := by
  by_cases h10 : n < 10
  · rw [zpad, repr_len_small n h10, two_digits, if_pos h10]
    rfl
  · rw [zpad, repr_len_eq 1 n (by omega) (by norm_num; omega), two_digits, if_neg h10]
    show "" ++ Nat.repr n = Nat.repr n
    simp

lemma zpad4_eq (n : Nat) (h : n < 10000) : zpad 4 n = four_digits n := by
  by_cases h10 : n < 10
  · rw [zpad, repr_len_small n h10, four_digits, if_pos h10]; rfl
  by_cases h100 : n < 100
  · rw [zpad, repr_len_eq 1 n (by omega) (by norm_num; omega), four_digits,
      if_neg h10, if_pos h100]
    rfl
  by_cases h1000 : n < 1000
  · rw [zpad, repr_len_eq 2 n (by norm_num; omega) (by norm_num; omega), four_digits,
      if_neg h10, if_neg h100, if_pos h1000]
    rfl
  · rw [zpad, repr_len_eq 3 n (by norm_num; omega) (by norm_num; omega), four_digits,
      if_neg h10, if_neg h100, if_neg h1000]
    show "" ++ Nat.repr n = Nat.repr n
    simp

lemma area_name_inj : ∀ a1 a2 : Area, a1.name = a2.name → a1 = a2 := by decide

lemma type_name_inj : ∀ t1 t2 : AllergyType, t1.name = t2.name → t1 = t2 := by decide

lemma save_image_path_inj {base : String} {now : DateTime} {t1 t2 : AllergyType}
    {a1 a2 : Area}
    (h : save_image_path base t1 now a1 = save_image_path base t2 now a2) :
    t1 = t2 ∧ a1 = a2 := by
  simp only [save_image_path, List.cons.injEq, and_true, true_and] at h
  exact ⟨type_name_inj t1 t2 h.1, area_name_inj a1 a2 h.2⟩

lemma readFile_writeFile_self (fs : FileSystem) (p : PyPath) (b : Bytes) :
    readFile (writeFile fs p b) p = some b := by
  simp [readFile, writeFile, List.find?_cons]

lemma find?_filter_ne (l : FileSystem) (p q : PyPath) (hne : q ≠ p) :
    ((l.filter (fun e => !decide (e.1 = q))).find? (fun e => decide (e.1 = p))) =
      l.find? (fun e => decide (e.1 = p)) := by
  have hpq : ¬ p = q := fun h' => hne h'.symm
  induction l with
  | nil => rfl
  | cons e rest ih =>
    by_cases hep : e.1 = p
    · have heq : ¬ e.1 = q := by rw [hep]; exact fun h' => hne h'.symm
      simp [List.filter_cons, List.find?_cons, heq, hep, hpq]
    · by_cases heq : e.1 = q
      · simp [List.filter_cons, List.find?_cons, heq, hep, hne, ih]
      · simp [List.filter_cons, List.find?_cons, heq, hep, ih]

lemma readFile_writeFile_ne (fs : FileSystem) (q p : PyPath) (b : Bytes)
    (h : q ≠ p) : readFile (writeFile fs q b) p = readFile fs p := by
  unfold readFile writeFile
  rw [List.find?_cons_of_neg _ (by simpa using h)]
  rw [find?_filter_ne fs p q h]

lemma countP_writeFile (fs : FileSystem) (p : PyPath) (b : Bytes) :
    (writeFile fs p b).countP (fun e => decide (e.1 = p)) = 1 := by
  have h0 : (fs.filter (fun e => !decide (e.1 = p))).countP
      (fun e => decide (e.1 = p)) = 0 := by
    rw [List.countP_eq_zero]
    intro e he
    rw [List.mem_filter] at he
    simpa using he.2
  simp [writeFile, List.countP_cons, h0]

lemma run_pair_eq (w : World) (fs : FileSystem) (a : Area) (t : AllergyType) :
    run_pair w fs a t =
      match step_success w a t with
      | some (p, b) => writeFile fs p b
      | none => fs := by
  cases hg : (get_data w t a).2 with
  | error e => simp [run_pair, step_success, hg]
  | ok content =>
    cases hd : w.draw t w.now content with
    | error e => simp [run_pair, step_success, save_image, hg, hd]
    | ok image_bytes =>
      cases hw : w.writeErr (save_image_path w.base t w.now a) image_bytes with
      | none => simp [run_pair, step_success, save_image, hg, hd, hw]
      | some e => simp [run_pair, step_success, save_image, hg, hd, hw]

lemma step_success_path (w : World) (a : Area) (t : AllergyType)
    (r : PyPath × Bytes) (h : step_success w a t = some r) :
    r.1 = save_image_path w.base t w.now a := by
  unfold step_success at h
  split at h
  · exact Option.noConfusion h
  · split at h
    · exact Option.noConfusion h
    · split at h
      · exact Option.noConfusion h
      · cases h; rfl

lemma foldl_readFile_untouched (w : World) (l : List (Area × AllergyType))
    (fs : FileSystem) (p : PyPath)
    (h : ∀ q ∈ l, ∀ r : PyPath × Bytes, step_success w q.1 q.2 = some r → r.1 ≠ p) :
    readFile (l.foldl (fun acc q => run_pair w acc q.1 q.2) fs) p = readFile fs p := by
  induction l generalizing fs with
  | nil => rfl
  | cons q rest ih =>
    simp only [List.foldl_cons]
    rw [ih (run_pair w fs q.1 q.2) (fun q' hq' => h q' (List.mem_cons_of_mem q hq'))]
    rw [run_pair_eq]
    cases hs : step_success w q.1 q.2 with
    | none => rfl
    | some r =>
      obtain ⟨rp, rb⟩ := r
      exact readFile_writeFile_ne fs rp p rb (h q (List.mem_cons_self q rest) (rp, rb) hs)

lemma foldl_readFile_success (w : World) (l : List (Area × AllergyType))
    (fs : FileSystem) (a : Area) (t : AllergyType) (p : PyPath) (b : Bytes)
    (hl : l.Nodup) (hmem : (a, t) ∈ l) (hs : step_success w a t = some (p, b)) :
    readFile (l.foldl (fun acc q => run_pair w acc q.1 q.2) fs) p = some b := by
  induction l generalizing fs with
  | nil => cases hmem
  | cons q rest ih =>
    rcases List.nodup_cons.mp hl with ⟨hq, hrest⟩
    simp only [List.foldl_cons]
    rcases List.mem_cons.mp hmem with heq | hmem'
    · subst heq
      rw [foldl_readFile_untouched w rest _ p ?_]
      · rw [run_pair_eq]
        simp only [hs]
        exact readFile_writeFile_self fs p b
      · intro q' hq' r hr
        have hrp : r.1 = save_image_path w.base q'.2 w.now q'.1 :=
          step_success_path w q'.1 q'.2 r hr
        have hp : p = save_image_path w.base t w.now a := step_success_path w a t (p, b) hs
        rw [hrp, hp]
        intro hcontra
        obtain ⟨ht', ha'⟩ := save_image_path_inj hcontra
        have hq'' : q' = (a, t) := Prod.ext_iff.mpr ⟨ha', ht'⟩
        exact hq (hq'' ▸ hq')
    · exact ih (run_pair w fs q.1 q.2) hrest hmem'

lemma sweep_order_nodup (areas : List Area) (types : List AllergyType)
    (ha : areas.Nodup) (ht : types.Nodup) : (sweep_order areas types).Nodup := by
  rw [sweep_order, List.nodup_flatMap]
  constructor
  · intro a _
    exact ht.map (fun t1 t2 h' => (Prod.ext_iff.mp h').2)
  · apply List.Pairwise.imp ?_ ha
    intro a1 a2 hne x hx1 hx2
    rw [List.mem_map] at hx1 hx2
    obtain ⟨t1, -, rfl⟩ := hx1
    obtain ⟨t2, -, h2⟩ := hx2
    exact hne ((Prod.ext_iff.mp h2).1.symm)

lemma mem_sweep_order (areas : List Area) (types : List AllergyType)
    (a : Area) (t : AllergyType) (hA : a ∈ areas) (hT : t ∈ types) :
    (a, t) ∈ sweep_order areas types := by
  rw [sweep_order, List.mem_flatMap]
  exact ⟨a, hA, List.mem_map.mpr ⟨t, hT, rfl⟩⟩

/-! The claims. -/

/-- C1, counterexample: a sweep whose measured duration is 86401 seconds
makes `run` compute a sleep of -1 seconds, not the claimed
max(0, 86400 - d) = 0 — line 133 performs no clamping. -/
theorem C1_counterexample :
    computed_sleep 86401 = -1 ∧
      computed_sleep 86401 ≠ max 0 ((86400 : ℚ) - 86401) := by
  have h1 : computed_sleep 86401 = -1 := by norm_num [computed_sleep]
  have h2 : max (0 : ℚ) ((86400 : ℚ) - 86401) = 0 := by
    rw [max_eq_left (by norm_num)]
  rw [h1, h2]
  norm_num

/-- C1, amended: `run` passes the unclamped value 86400 - d to
`asyncio.sleep`; for d > 86400 that computed value is negative, not 0.
The pause actually performed is still non-negative — `asyncio.sleep`
returns immediately on a non-positive delay — so the effective inter-sweep
delay equals max(0, 86400 - d), and is 0 whenever d > 86400. -/
theorem C1_cadence_clamp (d : ℚ) :
    asyncio_sleep_delay (computed_sleep d) = max 0 (86400 - d) ∧
      (86400 < d → computed_sleep d < 0 ∧
        asyncio_sleep_delay (computed_sleep d) = 0) := by
  have e : (24 * 60 * 60 : ℚ) = 86400 := by norm_num
  unfold computed_sleep asyncio_sleep_delay
  rw [e]
  refine ⟨?_, fun h => ⟨by linarith, ?_⟩⟩
  · rcases le_or_lt (86400 - d) 0 with h | h
    · rw [if_pos h, eq_comm]
      exact max_eq_left h
    · rw [if_neg (not_le.mpr h), eq_comm]
      exact max_eq_right (le_of_lt h)
  · rw [if_pos (by linarith)]

/-- C1, witness: the amended statement at the concrete duration 86401. -/
theorem C1_witness :
    asyncio_sleep_delay (computed_sleep 86401) = max 0 ((86400 : ℚ) - 86401) ∧
      (computed_sleep 86401 < 0 ∧ asyncio_sleep_delay (computed_sleep 86401) = 0) :=
  ⟨(C1_cadence_clamp 86401).1, (C1_cadence_clamp 86401).2 (by norm_num)⟩

/-- C2: per-pair fault isolation.  For any world (so in particular when
fetch, annotate or store raises for some pairs), the sweep attempts every
configured (region, allergen) pair in order and returns normally; every
pair whose step succeeds has its file written with its annotated bytes;
every pair whose step fails leaves its archive path untouched; and no
outcome of the sweep makes the loop exit the process. -/
theorem C2_per_pair_isolation (w : World) (areas : List Area)
    (types : List AllergyType) (fs : FileSystem) (res : Except PyError ℚ)
    (ha : areas.Nodup) (ht : types.Nodup) :
    (_run_step w areas types fs).2 = sweep_order areas types ∧
    run_iteration res ≠ LoopAction.exitProcess ∧
    (∀ a, a ∈ areas → ∀ t, t ∈ types → ∀ p b,
      step_success w a t = some (p, b) →
      readFile (_run_step w areas types fs).1 p = some b) ∧
    (∀ a, a ∈ areas → ∀ t, t ∈ types →
      step_success w a t = none →
      readFile (_run_step w areas types fs).1 (save_image_path w.base t w.now a) =
        readFile fs (save_image_path w.base t w.now a)) := by
  refine ⟨rfl, ?_, ?_, ?_⟩
  · cases res <;> simp [run_iteration]
  · intro a hA t hT p b hs
    exact foldl_readFile_success w (sweep_order areas types) fs a t p b
      (sweep_order_nodup areas types ha ht) (mem_sweep_order areas types a t hA hT) hs
  · intro a hA t hT hs
    apply foldl_readFile_untouched
    intro q hq r hr hcontra
    have hrp : r.1 = save_image_path w.base q.2 w.now q.1 :=
      step_success_path w q.1 q.2 r hr
    rw [hrp] at hcontra
    obtain ⟨ht', ha'⟩ := save_image_path_inj hcontra
    rw [ha', ht'] at hr
    rw [hr] at hs
    exact Option.noConfusion hs

/-- C2, witness: in a sweep over France (whose fetch fails with a
connection error) and Germany (which succeeds), Germany's file is written
with its annotated bytes and France's is absent. -/
theorem C2_witness :
    readFile (_run_step mixedWorld [Area.France, Area.Germany]
        [AllergyType.Birch] []).1
      ["collected-data", "Birch", "Germany", "2024", "3", "7.png"] =
      some [99, 1, 2, 3] ∧
    readFile (_run_step mixedWorld [Area.France, Area.Germany]
        [AllergyType.Birch] []).1
      ["collected-data", "Birch", "France", "2024", "3", "7.png"] = none :=
  ⟨(C2_per_pair_isolation mixedWorld [Area.France, Area.Germany]
      [AllergyType.Birch] [] (Except.ok 5) (by decide) (by decide)).2.2.1
      Area.Germany (by decide) AllergyType.Birch (by decide) _ _ rfl,
   (C2_per_pair_isolation mixedWorld [Area.France, Area.Germany]
      [AllergyType.Birch] [] (Except.ok 5) (by decide) (by decide)).2.2.2
      Area.France (by decide) AllergyType.Birch (by decide) rfl⟩

/-- C3, counterexample: an HTTP exchange that completes with status 500
and body [7, 7, 7] is not propagated as an error — `get_data` returns the
500 response's body as successful image bytes (line 61 returns
`result.content` without consulting the status code). -/
theorem C3_counterexample :
    http500World.httpGet AllergyType.Birch Area.Germany 0 "en" =
      Except.ok ⟨500, [7, 7, 7]⟩ ∧
    (get_data http500World AllergyType.Birch Area.Germany 0 "en").2 =
      Except.ok [7, 7, 7] :=
  ⟨rfl, rfl⟩

/-- C3, amended: an exception raised by the HTTP exchange itself (network
unreachable, timeout) propagates to the caller unchanged; but a completed
non-2xx response is not turned into an error — `get_data` performs no
status-code interpretation and returns the response body uninterpreted,
whatever the status. -/
theorem C3_transport_propagation (w : World) (t : AllergyType) (a : Area)
    (day : Int) (lang : String) (e : PyError) (r : HttpResponse)
    (hday : 0 ≤ day ∧ day ≤ 2) :
    (w.httpGet t a day lang = Except.error e →
      (get_data w t a day lang).2 = Except.error e) ∧
    (w.httpGet t a day lang = Except.ok r →
      (get_data w t a day lang).2 = Except.ok r.content) := by
  constructor <;> intro hx <;> simp [get_data, hday, hx]

/-- C3, witness: the amended statement at a failing exchange (France in
`mixedWorld`) and at a completed 500 response (`http500World`). -/
theorem C3_witness :
    (get_data mixedWorld AllergyType.Birch Area.France 0 "en").2 =
      Except.error ⟨false, "connection refused"⟩ ∧
    (get_data http500World AllergyType.Birch Area.Germany 0 "en").2 =
      Except.ok [7, 7, 7] :=
  ⟨(C3_transport_propagation mixedWorld AllergyType.Birch Area.France 0 "en"
      ⟨false, "connection refused"⟩ ⟨500, [7, 7, 7]⟩ (by decide)).1 rfl,
   (C3_transport_propagation http500World AllergyType.Birch Area.Germany 0 "en"
      ⟨false, "connection refused"⟩ ⟨500, [7, 7, 7]⟩ (by decide)).2 rfl⟩

/-- C4, counterexample: an `AssertionError` raised inside the fetch of a
pair IS caught by the per-pair guard — `except Exception` on line 144
catches it because `AssertionError` is an `Exception` subclass — so the
pair is skipped, the sweep runs to completion, and no failure of any kind
makes the run loop exit the process. -/
theorem C4_counterexample :
    (_run_step assertRaiseWorld [Area.Germany] [AllergyType.Birch] []).1 = [] ∧
    (_run_step assertRaiseWorld [Area.Germany] [AllergyType.Birch] []).2 =
      [(Area.Germany, AllergyType.Birch)] ∧
    run_iteration (Except.error ⟨true, "precondition violated"⟩) ≠
      LoopAction.exitProcess := by
  refine ⟨rfl, rfl, ?_⟩
  simp [run_iteration]

/-- C4, amended: a precondition violation surfacing inside a pair's step
is caught by the per-pair guard like any other failure (in CPython,
`AssertionError` is a subclass of `Exception`): the pair is skipped with
the archive unchanged, there is no retry of the step, and no failure kind
is escalated to process exit — the outer loop catches every `Exception`
too and continues. -/
theorem C4_precondition_guard (w : World) (fs : FileSystem) (a : Area)
    (t : AllergyType) (e : PyError) (res : Except PyError ℚ)
    (he : e.isAssertion = true) (h : (get_data w t a).2 = Except.error e) :
    run_pair w fs a t = fs ∧ run_iteration res ≠ LoopAction.exitProcess := by
  constructor
  · simp [run_pair, h]
  · cases res <;> simp [run_iteration]

/-- C4, witness: the amended statement at the concrete world whose fetch
raises an `AssertionError`. -/
theorem C4_witness :
    run_pair assertRaiseWorld [] Area.Germany AllergyType.Birch = [] ∧
      run_iteration (Except.error ⟨true, "precondition violated"⟩) ≠
        LoopAction.exitProcess :=
  C4_precondition_guard assertRaiseWorld [] Area.Germany AllergyType.Birch
    ⟨true, "precondition violated"⟩
    (Except.error ⟨true, "precondition violated"⟩) rfl rfl

/-- C5: the `assert 0 <= day <= 2` on line 51 runs before the request is
built: a day offset outside [0, 2] raises `AssertionError` with no
request issued, and a day offset inside [0, 2] passes the check and
issues exactly the expected request. -/
theorem C5_day_offset_bound (w : World) (t : AllergyType) (a : Area)
    (day : Int) (lang : String) :
    (¬ (0 ≤ day ∧ day ≤ 2) →
      get_data w t a day lang = ([], Except.error dayAssertionError)) ∧
    ((0 ≤ day ∧ day ≤ 2) →
      (get_data w t a day lang).1 =
        [⟨"/dex/rest/geo/map", t.value, a.value, day, lang⟩]) := by
  constructor <;> intro h <;> simp [get_data, h]

/-- C5, witness: day offsets 3 and -1 fail the precondition with no
request; day offset 0 issues the request. -/
theorem C5_witness :
    get_data okWorld AllergyType.Birch Area.Germany 3 "en" =
      ([], Except.error dayAssertionError) ∧
    get_data okWorld AllergyType.Birch Area.Germany (-1) "en" =
      ([], Except.error dayAssertionError) ∧
    (get_data okWorld AllergyType.Birch Area.Germany 0 "en").1 =
      [⟨"/dex/rest/geo/map", "BETU", "de", 0, "en"⟩] :=
  ⟨(C5_day_offset_bound okWorld AllergyType.Birch Area.Germany 3 "en").1 (by decide),
   (C5_day_offset_bound okWorld AllergyType.Birch Area.Germany (-1) "en").1 (by decide),
   (C5_day_offset_bound okWorld AllergyType.Birch Area.Germany 0 "en").2 (by decide)⟩

/-- C6: the archive path is
base/AllergyType-name/Area-name/year/month/day.png; it depends only on
the base directory, the allergen, the region and the capture date; and
saving twice for the same (allergen, region, day) leaves exactly one file
at that path, holding the second save's annotated bytes. -/
theorem C6_archive_path (w w' : World) (fs fs1 fs2 : FileSystem)
    (t : AllergyType) (a : Area) (c1 c2 b1 b2 : Bytes)
    (hb' : w'.base = w.base) (hn' : w'.now = w.now)
    (hd1 : w.draw t w.now c1 = Except.ok b1)
    (hd2 : w.draw t w.now c2 = Except.ok b2)
    (hw1 : w.writeErr (save_image_path w.base t w.now a) b1 = none)
    (hw2 : w.writeErr (save_image_path w.base t w.now a) b2 = none)
    (h1 : save_image w fs c1 t a = Except.ok fs1)
    (h2 : save_image w fs1 c2 t a = Except.ok fs2) :
    (save_image_path w.base t w.now a).render =
      w.base ++ "/" ++ t.name ++ "/" ++ a.name ++ "/" ++ Nat.repr w.now.year
        ++ "/" ++ Nat.repr w.now.month ++ "/" ++ (Nat.repr w.now.day ++ ".png") ∧
    save_image_path w'.base t w'.now a = save_image_path w.base t w.now a ∧
    fs2.countP (fun e => decide (e.1 = save_image_path w.base t w.now a)) = 1 ∧
    readFile fs2 (save_image_path w.base t w.now a) = some b2 := by
  have hf2 : fs2 = writeFile fs1 (save_image_path w.base t w.now a) b2 := by
    simp [save_image, hd2, hw2] at h2
    exact h2.symm
  refine ⟨?_, by rw [hb', hn'], ?_, ?_⟩
  · simp [PyPath.render, save_image_path, String.intercalate,
      String.intercalate.go, String.append_assoc]
  · rw [hf2]
    exact countP_writeFile fs1 _ b2
  · rw [hf2]
    exact readFile_writeFile_self fs1 _ b2

/-- C6, witness: saving content [1] and then content [2] for
(Birch, Germany) on 2024-03-07 leaves the archive with exactly the file
collected-data/Birch/Germany/2024/3/7.png holding the second save's
annotated bytes. -/
theorem C6_witness :
    (save_image_path "collected-data" AllergyType.Birch sampleDate
        Area.Germany).render = "collected-data/Birch/Germany/2024/3/7.png" ∧
    save_image_path okWorld.base AllergyType.Birch okWorld.now Area.Germany =
      save_image_path okWorld.base AllergyType.Birch okWorld.now Area.Germany ∧
    List.countP
      (fun e => decide (e.1 =
        save_image_path "collected-data" AllergyType.Birch sampleDate Area.Germany))
      [(["collected-data", "Birch", "Germany", "2024", "3", "7.png"], [99, 2])] = 1 ∧
    readFile [(["collected-data", "Birch", "Germany", "2024", "3", "7.png"], [99, 2])]
      (save_image_path "collected-data" AllergyType.Birch sampleDate Area.Germany) =
      some [99, 2] :=
  C6_archive_path okWorld okWorld []
    [(["collected-data", "Birch", "Germany", "2024", "3", "7.png"], [99, 1])]
    [(["collected-data", "Birch", "Germany", "2024", "3", "7.png"], [99, 2])]
    AllergyType.Birch Area.Germany [1] [2] [99, 1] [99, 2]
    rfl rfl rfl rfl rfl rfl rfl rfl

/-- C7: the run loop never terminates: no sweep outcome makes it exit the
process; an error escaping the sweep body is followed by exactly a
60-second pause and another iteration; and the sweep an iteration runs
always processes the full configured pair sequence from its first pair
(it never resumes mid-sweep or skips to the next day). -/
theorem C7_loop_never_exits (res : Except PyError ℚ) (e : PyError) (w : World)
    (areas : List Area) (types : List AllergyType) (fs : FileSystem) :
    run_iteration res ≠ LoopAction.exitProcess ∧
    (res = Except.error e →
      run_iteration res = LoopAction.continueAfterSleep 60) ∧
    (_run_step w areas types fs).2 = sweep_order areas types := by
  refine ⟨?_, ?_, rfl⟩
  · cases res <;> simp [run_iteration]
  · intro h
    subst h
    rfl

/-- C7, witness: the statement at a concrete escaped error and a concrete
one-pair sweep. -/
theorem C7_witness :
    run_iteration (Except.error ⟨false, "escaped sweep error"⟩) ≠
      LoopAction.exitProcess ∧
    run_iteration (Except.error ⟨false, "escaped sweep error"⟩) =
      LoopAction.continueAfterSleep 60 ∧
    (_run_step okWorld [Area.Germany] [AllergyType.Birch] []).2 =
      sweep_order [Area.Germany] [AllergyType.Birch] :=
  ⟨(C7_loop_never_exits (Except.error ⟨false, "escaped sweep error"⟩)
      ⟨false, "escaped sweep error"⟩ okWorld [Area.Germany] [AllergyType.Birch] []).1,
   (C7_loop_never_exits (Except.error ⟨false, "escaped sweep error"⟩)
      ⟨false, "escaped sweep error"⟩ okWorld [Area.Germany] [AllergyType.Birch] []).2.1
      rfl,
   (C7_loop_never_exits (Except.error ⟨false, "escaped sweep error"⟩)
      ⟨false, "escaped sweep error"⟩ okWorld [Area.Germany] [AllergyType.Birch] []).2.2⟩

/-- C8: the fill drawn for the label's background plate on line 87 has an
alpha of 1 out of 255 — below one percent opacity, a negligible-opacity
fill, not the solid or near-solid backing plate the claim requires.  (The
subsequent line 89 composites the image onto itself, blending no plate
with the underlying content at all.) -/
theorem C8_plate_fill_alpha :
    plate_fill.2.2.2 = 1 ∧ plate_fill.2.2.2 * 100 < 255 ∧
      plate_fill = (255, 255, 255, 1) := by
  decide

/-- C9: the label rendered by `draw_on_image` is the capture date as
YYYY-MM-DD, a single space, and the category's display name, for every
date the program can observe (a four-digit-or-less year, two-digit-or-less
month and day). -/
theorem C9_label_content (t : AllergyType) (d : DateTime)
    (hy : d.year < 10000) (hm : d.month < 100) (hd : d.day < 100) :
    label_text t d = spec_label t d := by
  unfold label_text strftime_Ymd spec_label
  rw [zpad4_eq d.year hy, zpad2_eq d.month hm, zpad2_eq d.day hd]

/-- C9, witness: the label for Birch on 2024-03-07. -/
theorem C9_witness :
    label_text AllergyType.Birch sampleDate = spec_label AllergyType.Birch sampleDate ∧
    label_text AllergyType.Birch sampleDate = "2024-03-07 Birch" :=
  ⟨C9_label_content AllergyType.Birch sampleDate (by decide) (by decide) (by decide),
   by decide⟩

/-- C10: the year, month and day segments of the archive path are the
unpadded decimal digits (month 3 gives directory "3" and, with day 3,
filename "3.png"), and unpadded decimal strings do not sort
lexicographically in calendar order: 9 < 10 as months, yet "10" precedes
"9" lexicographically. -/
theorem C10_unpadded_components (base : String) (t : AllergyType) (a : Area)
    (y : Nat) :
    save_image_path base t ⟨y, 3, 3⟩ a =
      [base, t.name, a.name, Nat.repr y, "3", "3.png"] ∧
    Nat.repr 9 = "9" ∧ Nat.repr 10 = "10" ∧ (9 : Nat) < 10 ∧
    (Nat.repr 10).data < (Nat.repr 9).data := by
  have h3 : Nat.repr 3 = "3" := by decide
  have h3p : Nat.repr 3 ++ ".png" = "3.png" := by decide
  refine ⟨?_, by decide, by decide, by norm_num, by decide⟩
  simp [save_image_path, h3, h3p]

end PollenApp
